import Mathlib

/-!
Verification development for the leadership-chatbot backend.

Shallow embedding of the authentication routes (`app/routes/auth.py`), the
chat routes (`app/routes/chat.py`), the chat-history model
(`app/models/chat_history.py`), the input-sanitization and validation helpers
(`app/utils/security.py`), the JWT identity loaders (`app/__init__.py`) and
the answer-provider boundary (`app/services/llama_service.py`).

Machine integers are modelled as `Nat`/`Int`; database rows as lists; the
nondeterminism of an SQL `ORDER BY` without a full ordering key is modelled
by quantifying over every row order the query constraint admits.
-/

/-- Modelled from the spec: `app/models/user.py` is not in `src/`.  §3 of the
spec gives the User record: `id` (stable unique identifier), `username`
(unique), `email` (unique), `password_hash` (derived, never stored in
plaintext). -/
structure User where
  id : Nat
  username : String
  email : String
  password_hash : String
deriving Repr, DecidableEq

/-- `ChatHistory` model (`app/models/chat_history.py`): columns `id`
(integer primary key), `user_id`, `question`, `response`, `timestamp`
(creation time, modelled as `Nat` clock ticks). -/
structure ChatEntry where
  id : Nat
  user_id : Nat
  question : String
  response : String
  timestamp : Nat
deriving Repr, DecidableEq

/-- The users table plus the primary-key counter the database uses to assign
the next `User.id`. -/
structure AuthDB where
  users : List User
  nextId : Nat
deriving Repr, DecidableEq

/-- The `chat_history` table plus the primary-key counter the database uses
to assign the next `ChatEntry.id` (ids are assigned monotonically). -/
structure ChatDB where
  entries : List ChatEntry
  nextId : Nat
deriving Repr, DecidableEq

/-! ## Input sanitization (`app/utils/security.py`, `sanitize_input`)

`sanitize_input` applies four `re.sub(pattern, '', s)` passes in order:

1. `<script.*?>.*?</script>` with `DOTALL`;
2. `<.*?>` (no `DOTALL`, so `.` does not cross a newline);
3. `\b(ALTER|CREATE|DELETE|DROP|EXEC(UTE)?|INSERT|SELECT|UPDATE)\b`, case
   insensitive;
4. `(\b(OR|AND)\b\s+\w+\s*=\s*\w+\s*($|\b))`, case insensitive.

Each pass is embedded as a left-to-right scanner that, at every position,
either removes a leftmost match (non-greedy sub-patterns take the shortest
extension, as in Python) or advances one character.  `\w` and `\s` are
embedded over the ASCII range, which covers the inputs this development
evaluates. -/

/-- ASCII embedding of the regex class `\w` = `[a-zA-Z0-9_]`. -/
def isWordChar (c : Char) : Bool :=
  c.isAlpha || c.isDigit || c == '_'

/-- ASCII embedding of the regex class `\s`. -/
def isSpaceChar (c : Char) : Bool :=
  c == ' ' || c == '\t' || c == '\n' || c == '\r' || c == '\x0b' || c == '\x0c'

/-- A word boundary `\b` placed after a word character: the next character
must not be a word character (or the string ends). -/
def boundaryAfter : List Char → Bool
  | [] => true
  | c :: _ => !isWordChar c

/-- `startsList p cs`: `cs` begins with the literal characters `p`. -/
def startsList : List Char → List Char → Bool
  | [], _ => true
  | _ :: _, [] => false
  | p :: ps, c :: cs => p == c && startsList ps cs

/-- Case-insensitive prefix test against an upper-case pattern. -/
def ciStarts : List Char → List Char → Bool
  | [], _ => true
  | _ :: _, [] => false
  | k :: ks, c :: cs => k == c.toUpper && ciStarts ks cs

/-- Length of the longest prefix of `cs` all of whose characters satisfy
`p` (the extent a greedy `p*` consumes). -/
def countWhile (p : Char → Bool) (cs : List Char) : Nat :=
  (cs.takeWhile p).length

/-- Generic left-to-right `re.sub(pattern, '', s)` scanner.  `step pw cs`
reports how a match starting at the head of `cs` would consume characters:
`(pw', n)` with `n ≠ 0` removes `n` characters and records in `pw'` whether
the last removed character is a word character (the state `pw` tracks, for
the `\b` tests, whether the character before the current position is a word
character); `n = 0` means no match here, so one character is kept and the
scan advances.  The `fuel` argument only makes the recursion structural:
each step consumes at least one character, so any `fuel` at least the
length of the list gives the same result (`scanRemoveSt_fuel`), and
`sanitize_input` always calls with the list's length. -/
def scanRemoveSt (step : Bool → List Char → Bool × Nat) :
    Nat → Bool → List Char → List Char
  | _, _, [] => []
  | 0, _, cs => cs
  | fuel + 1, pw, c :: rest =>
    let s := step pw (c :: rest)
    if s.2 = 0 then
      c :: scanRemoveSt step fuel (isWordChar c) rest
    else
      scanRemoveSt step fuel s.1 ((c :: rest).drop s.2)

/-- Characters of the literal `<script`. -/
def openScriptChars : List Char := ['<', 's', 'c', 'r', 'i', 'p', 't']

/-- Characters of the literal `</script>`. -/
def closeScriptChars : List Char := ['<', '/', 's', 'c', 'r', 'i', 'p', 't', '>']

/-- Index of the first `'>'` (any characters, including newlines, may come
before it: `DOTALL` is set for the script pattern). -/
def findGtIdx : List Char → Option Nat
  | [] => none
  | c :: rest => if c == '>' then some 0 else (findGtIdx rest).map (· + 1)

/-- Index of the first occurrence of `</script>`. -/
def findCloseScriptIdx : List Char → Option Nat
  | [] => none
  | c :: rest =>
    if startsList closeScriptChars (c :: rest) then some 0
    else (findCloseScriptIdx rest).map (· + 1)

/-- Pass 1 step: `<script.*?>.*?</script>` with `DOTALL`.  After the literal
`<script`, the non-greedy `.*?>` ends at the first `'>'` for which the rest
of the pattern can still match, and `.*?</script>` ends at the first
`</script>` after that; backtracking over later `'>'` choices never changes
the removed span, so taking the first `'>'` and then the first `</script>`
after it is the leftmost match. -/
def scriptStep (pw : Bool) (cs : List Char) : Bool × Nat :=
  if startsList openScriptChars cs then
    match findGtIdx (cs.drop 7) with
    | some p =>
      match findCloseScriptIdx (cs.drop (7 + p + 1)) with
      | some q => (false, 7 + p + 1 + q + 9)
      | none => (pw, 0)
    | none => (pw, 0)
  else (pw, 0)

/-- Index of the first `'>'` reachable without crossing a newline (`<.*?>`
is compiled without `DOTALL`, so `.` cannot match `'\n'`). -/
def findTagCloseIdx : List Char → Option Nat
  | [] => none
  | c :: rest =>
    if c == '\n' then none
    else if c == '>' then some 0
    else (findTagCloseIdx rest).map (· + 1)

/-- Pass 2 step: `<.*?>`. -/
def tagStep (pw : Bool) (cs : List Char) : Bool × Nat :=
  match cs with
  | '<' :: rest =>
    match findTagCloseIdx rest with
    | some p => (false, p + 2)
    | none => (pw, 0)
  | _ => (pw, 0)

/-- The SQL keyword alternation, in the pattern's alternation order;
`EXEC(UTE)?` tries the greedy `EXECUTE` before `EXEC`. -/
def sqlKeywords : List (List Char) :=
  [ ['A','L','T','E','R'], ['C','R','E','A','T','E'], ['D','E','L','E','T','E'],
    ['D','R','O','P'], ['E','X','E','C','U','T','E'], ['E','X','E','C'],
    ['I','N','S','E','R','T'], ['S','E','L','E','C','T'], ['U','P','D','A','T','E'] ]

/-- Match one keyword (case-insensitively) followed by a `\b`. -/
def kwLenAt (kw cs : List Char) : Option Nat :=
  if ciStarts kw cs && boundaryAfter (cs.drop kw.length) then some kw.length else none

/-- First alternative of the keyword alternation that matches here. -/
def firstKwLenAt : List (List Char) → List Char → Option Nat
  | [], _ => none
  | kw :: kws, cs =>
    match kwLenAt kw cs with
    | some n => some n
    | none => firstKwLenAt kws cs

/-- Pass 3 step: `\b(ALTER|...|UPDATE)\b`, case insensitive.  The leading
`\b` requires the previous character to be a non-word character (`pw =
false`); every keyword ends in a letter, so after a removal the scanner
state is `true`. -/
def sqlStep (pw : Bool) (cs : List Char) : Bool × Nat :=
  if pw then (pw, 0)
  else
    match firstKwLenAt sqlKeywords cs with
    | some n => (true, n)
    | none => (false, 0)

/-- Characters of `OR`. -/
def orKw : List Char := ['O','R']

/-- Characters of `AND`. -/
def andKw : List Char := ['A','N','D']

/-- Tail of pass 4, `\s*($|\b)`, entered with `cs` the text right after the
second `\w+` run and `j` the characters consumed so far.  The greedy `\s*`
takes the whole whitespace run when the position after it is the end of the
string or a word character (`\b` holds there); otherwise it backtracks to
the empty run, where `\b` holds between the final word character and the
following non-word character.  The returned flag records whether the last
removed character is a word character. -/
def orAndTail (cs : List Char) (j : Nat) : Bool × Nat :=
  match cs with
  | [] => (true, j)
  | _ =>
    let s4 := countWhile isSpaceChar cs
    match cs.drop s4 with
    | [] => (false, j + s4)
    | c :: _ => if isWordChar c then (false, j + s4) else (true, j)

/-- Body of pass 4 after the `OR`/`AND` word `w`: `\b\s+\w+\s*=\s*\w+` then
the tail `\s*($|\b)`.  The `\b` after the word combined with `\s+` amounts
to requiring at least one whitespace character; the `\w+`/`\s*` runs are
greedy and, the character classes being disjoint, never backtrack. -/
def orAndMatchFrom (w : List Char) (cs : List Char) : Bool × Nat :=
  let s1 := countWhile isSpaceChar cs
  if s1 = 0 then (false, 0) else
  let r1 := cs.drop s1
  let w1 := countWhile isWordChar r1
  if w1 = 0 then (false, 0) else
  let r2 := r1.drop w1
  let s2 := countWhile isSpaceChar r2
  match r2.drop s2 with
  | '=' :: r4 =>
    let s3 := countWhile isSpaceChar r4
    let r5 := r4.drop s3
    let w2 := countWhile isWordChar r5
    if w2 = 0 then (false, 0) else
    orAndTail (r5.drop w2) (w.length + s1 + w1 + s2 + 1 + s3 + w2)
  | _ => (false, 0)

/-- Pass 4 step: `(\b(OR|AND)\b\s+\w+\s*=\s*\w+\s*($|\b))`, case
insensitive.  `OR` and `AND` start with different letters, so at most one
alternative can match at a given position. -/
def orAndStep (pw : Bool) (cs : List Char) : Bool × Nat :=
  if pw then (pw, 0)
  else if ciStarts orKw cs then orAndMatchFrom orKw (cs.drop 2)
  else if ciStarts andKw cs then orAndMatchFrom andKw (cs.drop 3)
  else (pw, 0)

/-- `sanitize_input` (`app/utils/security.py`): the falsy guard returns an
empty string unchanged, then the four `re.sub` passes run in order. -/
def sanitize_input (s : String) : String :=
  if s.isEmpty then s
  else
    let l1 := scanRemoveSt scriptStep s.toList.length false s.toList
    let l2 := scanRemoveSt tagStep l1.length false l1
    let l3 := scanRemoveSt sqlStep l2.length false l2
    let l4 := scanRemoveSt orAndStep l3.length false l3
    String.mk l4

/-! ## Validation helpers (`app/utils/security.py`) -/

/-- The punctuation class of `validate_password`:
`[!@#$%^&*(),.?":\x7b\x7d|<>]`. -/
def specialChars : List Char :=
  ['!', '@', '#', '$', '%', '^', '&', '*', '(', ')', ',', '.', '?', '"',
   ':', '\x7b', '\x7d', '|', '<', '>']

/-- `validate_password` (`app/utils/security.py`): length, digit, upper,
lower and special-character checks, in source order, returning the flag and
the message of the first failing check. -/
def validate_password (password : String) : Bool × String :=
  if password.length < 8 then
    (false, "Password must be at least 8 characters long.")
  else if !password.toList.any (fun c => c.isDigit) then
    (false, "Password must contain at least one digit.")
  else if !password.toList.any (fun c => c.isUpper) then
    (false, "Password must contain at least one uppercase letter.")
  else if !password.toList.any (fun c => c.isLower) then
    (false, "Password must contain at least one lowercase letter.")
  else if !password.toList.any (fun c => specialChars.contains c) then
    (false, "Password must contain at least one special character.")
  else
    (true, "Password is valid.")

/-- Split a character list at its unique `'@'`; `none` when the list has no
`'@'` or more than one. -/
def splitAtSign : List Char → Option (List Char × List Char)
  | [] => none
  | c :: rest =>
    if c = '@' then
      if rest.contains '@' then none else some ([], rest)
    else
      match splitAtSign rest with
      | some p => some (c :: p.1, p.2)
      | none => none

/-- Modelled from the spec: `validate_email` (`app/utils/security.py`)
delegates to the external `email_validator` library, which is not in `src/`.
Per the spec the validator accepts a syntactically valid address and
normalizes it to canonical form; canonicalization lowercases the domain
part.  The model requires exactly one `@` separating nonempty parts and
lowercases the domain. -/
def normalizeEmail (email : String) : Option String :=
  match splitAtSign email.toList with
  | some (locPart, domPart) =>
    if locPart.isEmpty || domPart.isEmpty then none
    else some (String.mk (locPart ++ '@' :: domPart.map Char.toLower))
  | none => none

/-! ## Token identity loaders (`app/__init__.py`)

`user_identity_lookup` runs `str(user)` on the integer identity when a token
is minted; `user_lookup_callback` runs `int(identity)` (under
`try/except ValueError`) when a token is validated.  The decimal printer and
parser below embed `str`/`int` for the nonnegative integers database ids
range over. -/

/-- Decimal digit character for `d < 10`. -/
def digitChar (d : Nat) : Char := Char.ofNat (48 + d)

/-- Decimal digits of a natural number, most significant first (embeds
Python `str` on a nonnegative `int`). -/
def natToChars (n : Nat) : List Char :=
  if h : n < 10 then [digitChar n]
  else natToChars (n / 10) ++ [digitChar (n % 10)]
termination_by n
decreasing_by
  exact Nat.div_lt_self (by omega) (by omega)

/-- Numeric value of a decimal digit character, `none` otherwise. -/
def charVal (c : Char) : Option Nat :=
  if c.isDigit then some (c.toNat - 48) else none

/-- Accumulating decimal parser. -/
def parseNatAux (acc : Nat) : List Char → Option Nat
  | [] => some acc
  | c :: rest =>
    match charVal c with
    | some d => parseNatAux (acc * 10 + d) rest
    | none => none

/-- `user_identity_loader` (`app/__init__.py`): the identity is serialized
with `str` before it is placed in the credential. -/
def user_identity_lookup (uid : Nat) : String :=
  String.mk (natToChars uid)

/-- Embeds `int(identity)` under `try/except ValueError`: parses a decimal
subject back to the identifier, `none` on failure. -/
def parseIdentity (s : String) : Option Nat :=
  match s.toList with
  | [] => none
  | c :: rest => parseNatAux 0 (c :: rest)

/-- Token kinds: `create_access_token` / `create_refresh_token`. -/
inductive TokenKind where
  | access
  | refresh
deriving Repr, DecidableEq

/-- The self-contained credential: subject string plus kind (expiry and
signature are handled by the external JWT library). -/
structure Token where
  sub : String
  kind : TokenKind
deriving Repr, DecidableEq

/-- Minting a token: `create_access_token(identity=user.id)` (and the
refresh variant) pass the raw id through `user_identity_lookup`. -/
def issueToken (uid : Nat) (k : TokenKind) : Token :=
  ⟨user_identity_lookup uid, k⟩

/-- `user_lookup_callback` (`app/__init__.py`): parse the subject back to an
integer and load the user row, `none` when parsing or the lookup fails. -/
def user_lookup_callback (db : AuthDB) (sub : String) : Option User :=
  match parseIdentity sub with
  | none => none
  | some uid => db.users.find? (fun u => u.id = uid)

/-! ## Auth routes (`app/routes/auth.py`) -/

/-- Outcome of `POST /signup`: 400 validation error, 409 conflict, or 201
with the created user. -/
inductive SignupResult where
  | validationError (msg : String)
  | conflict (msg : String)
  | created (user : User)
deriving Repr, DecidableEq

/-- HTTP status of a signup outcome. -/
def signupStatus : SignupResult → Nat
  | .validationError _ => 400
  | .conflict _ => 409
  | .created _ => 201

/-- `signup` (`app/routes/auth.py`).  In source order: marshmallow
`UserSchema` validation (username length 3–50, email format, password length
at least 8), `sanitize_input` on the username, `validate_email` (whose
normalized result is bound to `email_msg` and used only as the 400 message),
`validate_password`, the username-uniqueness check, the email-uniqueness
check, then row creation.  The stored email is the raw validated input
`email`, not the normalized form.  The password is stored only through the
hash function `hashFn` (bcrypt in `app/models/user.py`, which is not in
`src/`; modelled as a parameter). -/
def signup (db : AuthDB) (hashFn : String → String)
    (username email password : String) : SignupResult × AuthDB :=
  if username.length < 3 || 50 < username.length then
    (.validationError "Shorter than minimum length 3.", db)
  else if (normalizeEmail email).isNone then
    (.validationError "Not a valid email address.", db)
  else if password.length < 8 then
    (.validationError "Shorter than minimum length 8.", db)
  else
    let uname := sanitize_input username
    match normalizeEmail email with
    | none => (.validationError "Not a valid email address.", db)
    | some _normalized =>
      let pw := validate_password password
      if !pw.1 then (.validationError pw.2, db)
      else if db.users.any (fun u => u.username = uname) then
        (.conflict "Username already exists", db)
      else if db.users.any (fun u => u.email = email) then
        (.conflict "Email already exists", db)
      else
        let u : User := ⟨db.nextId, uname, email, hashFn password⟩
        (.created u, ⟨db.users ++ [u], db.nextId + 1⟩)

/-- Outcome of `POST /login`: 401 with the fixed body, or 200 with both
tokens and the user. -/
inductive LoginResult where
  | invalidCredentials
  | ok (access refresh : Token) (user : User)
deriving Repr, DecidableEq

/-- HTTP status of a login outcome. -/
def loginStatus : LoginResult → Nat
  | .invalidCredentials => 401
  | .ok _ _ _ => 200

/-- Error body of a login outcome (`jsonify({'error': ...})`). -/
def loginErrorBody : LoginResult → Option String
  | .invalidCredentials => some "Invalid credentials"
  | .ok _ _ _ => none

/-- `login` (`app/routes/auth.py`).  No schema validation is applied:
`data.get('username', '')` and `data.get('password', '')` turn absent fields
into empty strings; the username is sanitized, looked up exactly, and
`if not user or not user.check_password(password)` collapses both failure
causes into one 401.  `check_password` lives in `app/models/user.py`
(bcrypt, not in `src/`) and is modelled as the parameter `checkPw`. -/
def login (db : AuthDB) (checkPw : User → String → Bool)
    (usernameField passwordField : Option String) : LoginResult :=
  let username := sanitize_input (usernameField.getD "")
  let password := passwordField.getD ""
  match db.users.find? (fun u => u.username = username) with
  | none => .invalidCredentials
  | some user =>
    if !checkPw user password then .invalidCredentials
    else .ok (issueToken user.id .access) (issueToken user.id .refresh) user

/-! ## Answer provider boundary (`app/services/llama_service.py`) -/

/-- Outcome of the external provider call as seen at the `try` boundary of
`LlamaService.get_response`: either the remote agent produced an answer, or
some exception was raised anywhere inside the `try` block (configuration,
client construction, or the remote call). -/
inductive ProviderOutcome where
  | ok (answer : String)
  | error
deriving Repr, DecidableEq

/-- The fixed user-safe fallback string of `get_response`. -/
def fallbackMessage : String :=
  "I'm sorry, but I encountered an error while processing your question."

/-- `LlamaService.get_response`: returns the agent's answer, and on any
exception inside the `try` block returns the fixed fallback string instead
of raising. -/
def get_response : ProviderOutcome → String
  | .ok answer => answer
  | .error => fallbackMessage

/-! ## Chat routes (`app/routes/chat.py`) -/

/-- Outcome of `POST /ask-question`: 400 on schema failure, 404 when the
token's user row is gone, 200 with question, response, and the new row
id. -/
inductive AskResult where
  | badRequest
  | userNotFound
  | ok (question response : String) (chat_id : Nat)
deriving Repr, DecidableEq

/-- HTTP status of an ask-question outcome. -/
def askStatus : AskResult → Nat
  | .badRequest => 400
  | .userNotFound => 404
  | .ok _ _ _ => 200

/-- `ask_question` (`app/routes/chat.py`).  In source order: marshmallow
`QuestionSchema` (the `question` field is required), user lookup by the
token identity, `sanitize_input` on the question, the provider call through
`get_response`, then the insert of the new `ChatHistory` row and the 200
body echoing the sanitized question, the response and the new id.  `now` is
the creation timestamp the database clock supplies. -/
def ask_question (adb : AuthDB) (db : ChatDB) (uid : Nat)
    (questionField : Option String) (outcome : ProviderOutcome) (now : Nat) :
    AskResult × ChatDB :=
  match questionField with
  | none => (.badRequest, db)
  | some questionRaw =>
    match adb.users.find? (fun u => u.id = uid) with
    | none => (.userNotFound, db)
    | some user =>
      let question := sanitize_input questionRaw
      let response := get_response outcome
      let entry : ChatEntry := ⟨db.nextId, user.id, question, response, now⟩
      (.ok question response db.nextId, ⟨db.entries ++ [entry], db.nextId + 1⟩)

/-- Body of the 200 response of `GET /chat-history`. -/
structure ChatHistoryResponse where
  chat_history : List ChatEntry
  total : Nat
  limit : Int
  offset : Int
deriving Repr, DecidableEq

/-- `get_chat_history` (`app/routes/chat.py`).  `limit` and `offset` arrive
as integers; `if limit < 1 or limit > 100: limit = 10` and
`if offset < 0: offset = 0` clamp them.  The query filters the user's rows,
orders by `timestamp` descending — and by nothing else: the row order the
database returns is any list `ordered` compatible with that `ORDER BY` —
then applies `OFFSET`/`LIMIT`.  `total` counts the user's rows.  The route
always answers 200. -/
def get_chat_history (db : ChatDB) (uid : Nat) (ordered : List ChatEntry)
    (limitArg offsetArg : Int) : ChatHistoryResponse × Nat :=
  let limit := if limitArg < 1 || 100 < limitArg then (10 : Int) else limitArg
  let offset := if offsetArg < 0 then (0 : Int) else offsetArg
  ({ chat_history := (ordered.drop offset.toNat).take limit.toNat
   , total := (db.entries.filter (fun e => e.user_id = uid)).length
   , limit := limit
   , offset := offset }, 200)

/-- The constraint `ORDER BY timestamp DESC` imposes on the rows the
database hands back for a user's `chat_history` query: a permutation of the
user's rows whose timestamps are non-increasing.  The query has no secondary
sort key, so nothing further is constrained. -/
def dbOrderValid (db : ChatDB) (uid : Nat) (ordered : List ChatEntry) : Prop :=
  List.Perm ordered (db.entries.filter (fun e => e.user_id = uid)) ∧
  List.Pairwise (fun a b => b.timestamp ≤ a.timestamp) ordered

instance (db : ChatDB) (uid : Nat) (ordered : List ChatEntry) :
    Decidable (dbOrderValid db uid ordered) := by
  unfold dbOrderValid
  infer_instance

/-- Outcome of `GET /chat-history/<chat_id>`. -/
inductive ChatItemResult where
  | notFound
  | forbidden
  | ok (chat : ChatEntry)
deriving Repr, DecidableEq

/-- HTTP status of a chat-item outcome. -/
def chatItemStatus : ChatItemResult → Nat
  | .notFound => 404
  | .forbidden => 403
  | .ok _ => 200

/-- `get_chat_item` (`app/routes/chat.py`): primary-key lookup first
(`ChatHistory.query.get`), 404 when absent; ownership check second, 403 when
`chat.user_id != int(user_id)`; otherwise 200 with the row. -/
def get_chat_item (db : ChatDB) (uid : Nat) (chat_id : Nat) : ChatItemResult :=
  match db.entries.find? (fun e => e.id = chat_id) with
  | none => .notFound
  | some chat =>
    if chat.user_id ≠ uid then .forbidden
    else .ok chat

/-! ## Helper lemmas -/

/-- A digit character parses back to its value. -/
theorem charVal_digitChar (d : Nat) (hd : d < 10) : charVal (digitChar d) = some d := by
  interval_cases d <;> decide

/-- The decimal form of a number is never empty. -/
theorem natToChars_ne_nil (n : Nat) : natToChars n ≠ [] := by
  rw [natToChars]
  split <;> simp

/-- Parsing the decimal form of `n` followed by `rest` shifts the
accumulator by the printed digits and adds `n`. -/
theorem parseNatAux_append (n : Nat) :
    ∀ acc rest, parseNatAux acc (natToChars n ++ rest) =
      parseNatAux (acc * 10 ^ (natToChars n).length + n) rest := by
  induction n using Nat.strong_induction_on with
  | _ n ih =>
    intro acc rest
    rw [natToChars]
    split
    case isTrue h =>
      simp only [List.singleton_append, List.length_singleton, parseNatAux,
        charVal_digitChar n h, pow_one]
      rfl
    case isFalse h =>
      have hd : n / 10 < n := Nat.div_lt_self (by omega) (by omega)
      rw [List.append_assoc, ih (n / 10) hd acc]
      simp only [List.singleton_append, parseNatAux,
        charVal_digitChar (n % 10) (Nat.mod_lt n (by omega)), List.length_append,
        List.length_singleton]
      have key : (acc * 10 ^ (natToChars (n / 10)).length + n / 10) * 10 + n % 10 =
          acc * 10 ^ ((natToChars (n / 10)).length + 1) + n := by
        calc (acc * 10 ^ (natToChars (n / 10)).length + n / 10) * 10 + n % 10
            = acc * 10 ^ (natToChars (n / 10)).length * 10 + (10 * (n / 10) + n % 10) := by
              ring
          _ = acc * 10 ^ (natToChars (n / 10)).length * 10 + n := by
              rw [Nat.div_add_mod]
          _ = acc * 10 ^ ((natToChars (n / 10)).length + 1) + n := by
              ring
      rw [key]
      rfl

/-- `int(str(n)) == n`: the credential subject round-trips. -/
theorem parseIdentity_roundtrip (n : Nat) :
    parseIdentity (user_identity_lookup n) = some n := by
  have key := parseNatAux_append n 0 []
  rw [List.append_nil] at key
  simp only [Nat.zero_mul, Nat.zero_add, parseNatAux] at key
  unfold parseIdentity user_identity_lookup
  cases hA : natToChars n with
  | nil => exact absurd hA (natToChars_ne_nil n)
  | cons c cs =>
    rw [hA] at key
    simpa using key

/-- A password accepted by `validate_password` has at least 8 characters. -/
theorem validate_password_length (p : String)
    (h : (validate_password p).1 = true) : 8 ≤ p.length := by
  by_contra hlt
  have hl : p.length < 8 := by omega
  simp [validate_password, hl] at h

/-- The scanner's fuel is irrelevant once it reaches the list's length: each
step consumes at least one character.  `sanitize_input` always supplies the
length, so the fuel never runs out. -/
theorem scanRemoveSt_fuel (step : Bool → List Char → Bool × Nat) :
    ∀ (fuel fuel' : Nat) (pw : Bool) (cs : List Char),
      cs.length ≤ fuel → cs.length ≤ fuel' →
      scanRemoveSt step fuel pw cs = scanRemoveSt step fuel' pw cs := by
  intro fuel
  induction fuel with
  | zero =>
    intro fuel' pw cs h _
    have hnil : cs = [] := List.length_eq_zero.mp (Nat.le_zero.mp h)
    subst hnil
    cases fuel' <;> rfl
  | succ f ih =>
    intro fuel' pw cs h h'
    cases cs with
    | nil => cases fuel' <;> rfl
    | cons c rest =>
      cases fuel' with
      | zero => simp at h'
      | succ f2 =>
        simp only [scanRemoveSt]
        split_ifs with hz
        · rw [ih f2 (isWordChar c) rest (by simpa using h) (by simpa using h')]
        · apply ih
          · simp only [List.length_drop, List.length_cons]
            simp only [List.length_cons] at h
            omega
          · simp only [List.length_drop, List.length_cons]
            simp only [List.length_cons] at h'
            omega

/-- For a payload that passes every validation check, `signup` reduces to
the two uniqueness checks (username first) and then the row creation. -/
theorem signup_checks (db : AuthDB) (hashFn : String → String) (u e p : String)
    (hu : 3 ≤ u.length ∧ u.length ≤ 50)
    (hm : (normalizeEmail e).isSome = true)
    (hp : (validate_password p).1 = true) :
    signup db hashFn u e p =
      if db.users.any (fun x => x.username = sanitize_input u) then
        (.conflict "Username already exists", db)
      else if db.users.any (fun x => x.email = e) then
        (.conflict "Email already exists", db)
      else
        (.created ⟨db.nextId, sanitize_input u, e, hashFn p⟩,
         ⟨db.users ++ [⟨db.nextId, sanitize_input u, e, hashFn p⟩], db.nextId + 1⟩) := by
  obtain ⟨v, hv⟩ := Option.isSome_iff_exists.mp hm
  have h8 := validate_password_length p hp
  have c1 : (u.length < 3 || 50 < u.length) = false := by
    simp only [Bool.or_eq_false_iff, decide_eq_false_iff_not]
    omega
  have c2 : ¬ p.length < 8 := by omega
  simp [signup, c1, c2, hv, hp]

/-! ## Concrete data used by witnesses and counterexamples -/

/-- A stored user row for concrete runs. -/
def demoUser : User := ⟨1, "bob", "bob@example.com", "hash1"⟩

/-- A one-user credential store. -/
def demoAuthDB : AuthDB := ⟨[demoUser], 2⟩

/-- A concrete stand-in for the bcrypt hash function. -/
def demoHash (p : String) : String := "hashed:" ++ p

/-- A concrete stand-in for bcrypt verification. -/
def demoCheckPw (u : User) (p : String) : Bool :=
  u.password_hash == "hashed:" ++ p

/-- First of two chat entries sharing one creation timestamp. -/
def cexEntryA : ChatEntry := ⟨1, 1, "q1", "r1", 100⟩

/-- Second of two chat entries sharing one creation timestamp. -/
def cexEntryB : ChatEntry := ⟨2, 1, "q2", "r2", 100⟩

/-- A chat table whose two rows carry equal timestamps. -/
def cexChatDB : ChatDB := ⟨[cexEntryA, cexEntryB], 3⟩

/-- A chat table with rows owned by users 7 and 5. -/
def cexChatDB2 : ChatDB := ⟨[⟨1, 7, "qa", "ra", 50⟩, ⟨2, 5, "qb", "rb", 60⟩], 3⟩

/-! ## Claims -/

/-- C1 (counterexample): the query behind `GET /chat-history` orders only by
`timestamp` descending, with no tie-break on the id.  For a table holding two
entries of one user with equal timestamps, both relative orders satisfy
everything the code asks of the database, and they produce different response
lists — so the returned order is not the total, stable,
id-tie-broken order the claim asserts. -/
theorem chat_history_order_not_total :
    dbOrderValid cexChatDB 1 [cexEntryA, cexEntryB] ∧
    dbOrderValid cexChatDB 1 [cexEntryB, cexEntryA] ∧
    (get_chat_history cexChatDB 1 [cexEntryA, cexEntryB] 10 0).1.chat_history ≠
      (get_chat_history cexChatDB 1 [cexEntryB, cexEntryA] 10 0).1.chat_history :=
  ⟨by decide, by decide, by decide⟩

/-- C1 (amended): for every row order the `ORDER BY timestamp DESC` query
constraint admits, `GET /chat-history` returns a page of the user's entries
whose timestamps are non-increasing, every returned entry belongs to the
requesting user, and `total` counts exactly the user's entries; ties between
equal timestamps are left undetermined by the code. -/
theorem chat_history_timestamp_ordered (db : ChatDB) (uid : Nat)
    (ordered : List ChatEntry) (l o : Int)
    (hord : dbOrderValid db uid ordered) :
    List.Pairwise (fun a b => b.timestamp ≤ a.timestamp)
      (get_chat_history db uid ordered l o).1.chat_history ∧
    (∀ e ∈ (get_chat_history db uid ordered l o).1.chat_history, e.user_id = uid) ∧
    (get_chat_history db uid ordered l o).1.total =
      (db.entries.filter (fun e => e.user_id = uid)).length := by
  obtain ⟨hperm, hsort⟩ := hord
  have hsub : List.Sublist (get_chat_history db uid ordered l o).1.chat_history ordered := by
    simp only [get_chat_history]
    exact (List.take_sublist _ _).trans (List.drop_sublist _ _)
  refine ⟨hsort.sublist hsub, ?_, rfl⟩
  intro e he
  have h1 : e ∈ ordered := hsub.subset he
  have h2 : e ∈ db.entries.filter (fun x => x.user_id = uid) := hperm.mem_iff.mp h1
  have h3 := List.mem_filter.mp h2
  simpa using h3.2

/-- C1 (witness): the amended theorem evaluated on the concrete equal-timestamp
table with one admissible row order. -/
theorem chat_history_timestamp_ordered_witness :
    dbOrderValid cexChatDB 1 [cexEntryB, cexEntryA] ∧
    (List.Pairwise (fun a b => b.timestamp ≤ a.timestamp)
      (get_chat_history cexChatDB 1 [cexEntryB, cexEntryA] 10 0).1.chat_history ∧
    (∀ e ∈ (get_chat_history cexChatDB 1 [cexEntryB, cexEntryA] 10 0).1.chat_history,
      e.user_id = 1) ∧
    (get_chat_history cexChatDB 1 [cexEntryB, cexEntryA] 10 0).1.total =
      (cexChatDB.entries.filter (fun e => e.user_id = 1)).length) :=
  ⟨by decide, chat_history_timestamp_ordered cexChatDB 1 [cexEntryB, cexEntryA] 10 0 (by decide)⟩

/-- C2: when the Answer Provider fails internally, `ask-question` still
answers 200, its `response` field is exactly the fixed fallback string, and
the very same fallback string is persisted as the response of the new ledger
entry; the failure never propagates. -/
theorem ask_question_absorbs_provider_failure (adb : AuthDB) (db : ChatDB)
    (uid : Nat) (q : String) (now : Nat) (user : User)
    (hu : adb.users.find? (fun u => u.id = uid) = some user) :
    ask_question adb db uid (some q) .error now =
      (.ok (sanitize_input q) fallbackMessage db.nextId,
       ⟨db.entries ++ [⟨db.nextId, uid, sanitize_input q, fallbackMessage, now⟩],
        db.nextId + 1⟩) ∧
    askStatus (ask_question adb db uid (some q) .error now).1 = 200 := by
  have hid : user.id = uid := by
    have := List.find?_some hu
    simpa using this
  constructor
  · simp [ask_question, hu, get_response, hid]
  · simp [ask_question, hu, askStatus]

/-- C2 (witness): the provider-failure theorem evaluated on a concrete store
and question. -/
theorem ask_question_absorbs_provider_failure_witness :
    (demoAuthDB.users.find? (fun u => u.id = 1) = some demoUser) ∧
    (ask_question demoAuthDB ⟨[], 1⟩ 1 (some "hello") .error 5 =
      (.ok (sanitize_input "hello") fallbackMessage 1,
       ⟨[⟨1, 1, sanitize_input "hello", fallbackMessage, 5⟩], 2⟩) ∧
     askStatus (ask_question demoAuthDB ⟨[], 1⟩ 1 (some "hello") .error 5).1 = 200) :=
  ⟨by decide,
   ask_question_absorbs_provider_failure demoAuthDB ⟨[], 1⟩ 1 "hello" 5 demoUser (by decide)⟩

/-- C3: `GET /chat-history/<id>` answers 404 when no entry has the requested
id (regardless of who asks — the existence check runs strictly before the
ownership check), 403 when the entry exists but is owned by someone else, and
200 with the entry itself for its owner. -/
theorem get_chat_item_access_control (db : ChatDB)
    (uidA cidA uidB cidB uidC cidC : Nat) (eB eC : ChatEntry)
    (hA : db.entries.find? (fun e => e.id = cidA) = none)
    (hB : db.entries.find? (fun e => e.id = cidB) = some eB)
    (hBo : eB.user_id ≠ uidB)
    (hC : db.entries.find? (fun e => e.id = cidC) = some eC)
    (hCo : eC.user_id = uidC) :
    get_chat_item db uidA cidA = .notFound ∧
    chatItemStatus (get_chat_item db uidA cidA) = 404 ∧
    get_chat_item db uidB cidB = .forbidden ∧
    chatItemStatus (get_chat_item db uidB cidB) = 403 ∧
    get_chat_item db uidC cidC = .ok eC ∧
    chatItemStatus (get_chat_item db uidC cidC) = 200 := by
  refine ⟨?_, ?_, ?_, ?_, ?_, ?_⟩ <;>
    simp [get_chat_item, hA, hB, hC, hBo, hCo, chatItemStatus]

/-- C3 (witness): the access-control theorem evaluated on a concrete table —
user 5 asking for a missing id, for the entry of user 7, and for their own
entry. -/
theorem get_chat_item_access_control_witness :
    (cexChatDB2.entries.find? (fun e => e.id = 99) = none) ∧
    (cexChatDB2.entries.find? (fun e => e.id = 1) = some ⟨1, 7, "qa", "ra", 50⟩) ∧
    ((7 : Nat) ≠ 5) ∧
    (cexChatDB2.entries.find? (fun e => e.id = 2) = some ⟨2, 5, "qb", "rb", 60⟩) ∧
    ((5 : Nat) = 5) ∧
    (get_chat_item cexChatDB2 5 99 = .notFound ∧
     chatItemStatus (get_chat_item cexChatDB2 5 99) = 404 ∧
     get_chat_item cexChatDB2 5 1 = .forbidden ∧
     chatItemStatus (get_chat_item cexChatDB2 5 1) = 403 ∧
     get_chat_item cexChatDB2 5 2 = .ok ⟨2, 5, "qb", "rb", 60⟩ ∧
     chatItemStatus (get_chat_item cexChatDB2 5 2) = 200) :=
  ⟨by decide, by decide, by decide, by decide, by decide,
   get_chat_item_access_control cexChatDB2 5 99 5 1 5 2 ⟨1, 7, "qa", "ra", 50⟩
     ⟨2, 5, "qb", "rb", 60⟩ (by decide) (by decide) (by decide) (by decide) (by decide)⟩

/-- C4: `GET /chat-history` never fails on its pagination parameters: for
every integer `limit` and `offset` the route answers 200, a `limit` outside
`[1, 100]` is silently reset to the default 10 while an in-range `limit` is
used unchanged, a negative `offset` is reset to 0, and the response echoes
the clamped values. -/
theorem chat_history_clamping (db : ChatDB) (uid : Nat)
    (ordered : List ChatEntry) (l o : Int) :
    (get_chat_history db uid ordered l o).2 = 200 ∧
    (get_chat_history db uid ordered l o).1.limit =
      (if l < 1 || 100 < l then 10 else l) ∧
    (get_chat_history db uid ordered l o).1.offset =
      (if o < 0 then 0 else o) :=
  ⟨rfl, rfl, rfl⟩

/-- C5: for validation-passing signup payloads the two uniqueness checks are
evaluated in order — a taken username answers 409 "Username already exists"
even when the email is also taken (hypothesis `he1` — the username collision
takes precedence), a taken email alone answers 409 "Email already exists",
and with neither taken the user is created (201); the result type makes the
four outcomes mutually exclusive. -/
theorem signup_conflict_reporting (db : AuthDB) (hashFn : String → String)
    (u1 e1 p1 u2 e2 p2 u3 e3 p3 : String)
    (hv1 : 3 ≤ u1.length ∧ u1.length ≤ 50) (hm1 : (normalizeEmail e1).isSome = true)
    (hp1 : (validate_password p1).1 = true)
    (ht1 : db.users.any (fun u => u.username = sanitize_input u1) = true)
    (he1 : db.users.any (fun u => u.email = e1) = true)
    (hv2 : 3 ≤ u2.length ∧ u2.length ≤ 50) (hm2 : (normalizeEmail e2).isSome = true)
    (hp2 : (validate_password p2).1 = true)
    (ht2 : db.users.any (fun u => u.username = sanitize_input u2) = false)
    (he2 : db.users.any (fun u => u.email = e2) = true)
    (hv3 : 3 ≤ u3.length ∧ u3.length ≤ 50) (hm3 : (normalizeEmail e3).isSome = true)
    (hp3 : (validate_password p3).1 = true)
    (ht3 : db.users.any (fun u => u.username = sanitize_input u3) = false)
    (he3 : db.users.any (fun u => u.email = e3) = false) :
    (signup db hashFn u1 e1 p1).1 = .conflict "Username already exists" ∧
    signupStatus (signup db hashFn u1 e1 p1).1 = 409 ∧
    (signup db hashFn u2 e2 p2).1 = .conflict "Email already exists" ∧
    signupStatus (signup db hashFn u2 e2 p2).1 = 409 ∧
    (signup db hashFn u3 e3 p3).1 =
      .created ⟨db.nextId, sanitize_input u3, e3, hashFn p3⟩ ∧
    signupStatus (signup db hashFn u3 e3 p3).1 = 201 := by
  rw [signup_checks db hashFn u1 e1 p1 hv1 hm1 hp1,
      signup_checks db hashFn u2 e2 p2 hv2 hm2 hp2,
      signup_checks db hashFn u3 e3 p3 hv3 hm3 hp3]
  simp [ht1, he1, ht2, he2, ht3, he3, signupStatus]

/-- C5 (witness): the conflict-reporting theorem evaluated on a store holding
the user `bob` — payload one collides on both username and email, payload two
only on the email, payload three on neither. -/
theorem signup_conflict_reporting_witness :
    ((3 ≤ ("bob" : String).length ∧ ("bob" : String).length ≤ 50) ∧
     (normalizeEmail "bob@example.com").isSome = true ∧
     (validate_password "Aa1!aaaa").1 = true ∧
     demoAuthDB.users.any (fun u => u.username = sanitize_input "bob") = true ∧
     demoAuthDB.users.any (fun u => u.email = "bob@example.com") = true ∧
     demoAuthDB.users.any (fun u => u.username = sanitize_input "carol") = false ∧
     demoAuthDB.users.any (fun u => u.email = "carol@x.com") = false) ∧
    ((signup demoAuthDB demoHash "bob" "bob@example.com" "Aa1!aaaa").1 =
       .conflict "Username already exists" ∧
     signupStatus (signup demoAuthDB demoHash "bob" "bob@example.com" "Aa1!aaaa").1 = 409 ∧
     (signup demoAuthDB demoHash "carol" "bob@example.com" "Aa1!aaaa").1 =
       .conflict "Email already exists" ∧
     signupStatus (signup demoAuthDB demoHash "carol" "bob@example.com" "Aa1!aaaa").1 = 409 ∧
     (signup demoAuthDB demoHash "carol" "carol@x.com" "Aa1!aaaa").1 =
       .created ⟨demoAuthDB.nextId, sanitize_input "carol", "carol@x.com",
         demoHash "Aa1!aaaa"⟩ ∧
     signupStatus (signup demoAuthDB demoHash "carol" "carol@x.com" "Aa1!aaaa").1 = 201) :=
  ⟨⟨by decide, by decide, by decide, by decide, by decide, by decide, by decide⟩,
   signup_conflict_reporting demoAuthDB demoHash "bob" "bob@example.com" "Aa1!aaaa"
     "carol" "bob@example.com" "Aa1!aaaa" "carol" "carol@x.com" "Aa1!aaaa"
     (by decide) (by decide) (by decide) (by decide) (by decide)
     (by decide) (by decide) (by decide) (by decide) (by decide)
     (by decide) (by decide) (by decide) (by decide) (by decide)⟩

/-- C6: a login attempt with an unknown username and one with a known
username but wrong password produce the very same result value — the same
401 status and the identical body text "Invalid credentials" — so the two
failure causes cannot be told apart by the caller. -/
theorem login_failures_indistinguishable (db : AuthDB)
    (checkPw : User → String → Bool)
    (u1 p1 u2 p2 : Option String) (user : User)
    (h1 : db.users.find? (fun u => u.username = sanitize_input (u1.getD "")) = none)
    (h2 : db.users.find? (fun u => u.username = sanitize_input (u2.getD "")) = some user)
    (h3 : checkPw user (p2.getD "") = false) :
    login db checkPw u1 p1 = login db checkPw u2 p2 ∧
    login db checkPw u1 p1 = .invalidCredentials ∧
    loginStatus (login db checkPw u1 p1) = 401 ∧
    loginStatus (login db checkPw u2 p2) = 401 ∧
    loginErrorBody (login db checkPw u1 p1) = some "Invalid credentials" ∧
    loginErrorBody (login db checkPw u2 p2) = some "Invalid credentials" := by
  simp [login, h1, h2, h3, loginStatus, loginErrorBody]

/-- C6 (witness): the indistinguishability theorem evaluated on the concrete
store — `nosuch` is absent, `bob` exists but the password is wrong. -/
theorem login_failures_indistinguishable_witness :
    (demoAuthDB.users.find?
      (fun u => u.username = sanitize_input ((some "nosuch").getD "")) = none) ∧
    (demoAuthDB.users.find?
      (fun u => u.username = sanitize_input ((some "bob").getD "")) = some demoUser) ∧
    (demoCheckPw demoUser ((some "wrongpass").getD "") = false) ∧
    (login demoAuthDB demoCheckPw (some "nosuch") (some "x") =
       login demoAuthDB demoCheckPw (some "bob") (some "wrongpass") ∧
     login demoAuthDB demoCheckPw (some "nosuch") (some "x") = .invalidCredentials ∧
     loginStatus (login demoAuthDB demoCheckPw (some "nosuch") (some "x")) = 401 ∧
     loginStatus (login demoAuthDB demoCheckPw (some "bob") (some "wrongpass")) = 401 ∧
     loginErrorBody (login demoAuthDB demoCheckPw (some "nosuch") (some "x")) =
       some "Invalid credentials" ∧
     loginErrorBody (login demoAuthDB demoCheckPw (some "bob") (some "wrongpass")) =
       some "Invalid credentials") :=
  ⟨by decide, by decide, by decide,
   login_failures_indistinguishable demoAuthDB demoCheckPw (some "nosuch") (some "x")
     (some "bob") (some "wrongpass") demoUser (by decide) (by decide) (by decide)⟩

/-- C7: minting either kind of token serializes the raw integer identifier
as its decimal string inside the credential, and validation parses the
subject back to the original integer — `int(str(uid)) = uid` — so the lookup
performed by the authorization gate resolves exactly the user with that
id. -/
theorem token_identity_roundtrip (uid : Nat) (k : TokenKind) (db : AuthDB) :
    (issueToken uid k).sub = user_identity_lookup uid ∧
    (issueToken uid k).kind = k ∧
    parseIdentity (issueToken uid k).sub = some uid ∧
    user_lookup_callback db (issueToken uid k).sub =
      db.users.find? (fun u => u.id = uid) := by
  refine ⟨rfl, rfl, parseIdentity_roundtrip uid, ?_⟩
  simp [user_lookup_callback, issueToken, parseIdentity_roundtrip uid]

/-- C8 (counterexample): on the concrete input `Alice@Example.COM` the
modelled canonical form is `Alice@example.com`, yet signup stores and returns
the raw input string — the normalized form computed by `validate_email` is
discarded, contradicting the claim that the stored email equals the
canonical form. -/
theorem signup_stores_raw_email_cex :
    normalizeEmail "Alice@Example.COM" = some "Alice@example.com" ∧
    (signup ⟨[], 1⟩ demoHash "alice" "Alice@Example.COM" "Aa1!aaaa").1 =
      .created ⟨1, "alice", "Alice@Example.COM", demoHash "Aa1!aaaa"⟩ ∧
    ("Alice@Example.COM" : String) ≠ "Alice@example.com" :=
  ⟨by decide, by decide, by decide⟩

/-- C8 (amended): signup validates the email (the canonical form is computed
and decides only validity), but the uniqueness check, the stored row and the
returned user all carry the raw input email string, not the normalized
form. -/
theorem signup_stores_raw_email (db : AuthDB) (hashFn : String → String)
    (u e p : String)
    (hv : 3 ≤ u.length ∧ u.length ≤ 50)
    (hm : (normalizeEmail e).isSome = true)
    (hp : (validate_password p).1 = true)
    (ht : db.users.any (fun x => x.username = sanitize_input u) = false)
    (he : db.users.any (fun x => x.email = e) = false) :
    (signup db hashFn u e p).1 = .created ⟨db.nextId, sanitize_input u, e, hashFn p⟩ ∧
    (signup db hashFn u e p).2.users =
      db.users ++ [⟨db.nextId, sanitize_input u, e, hashFn p⟩] := by
  rw [signup_checks db hashFn u e p hv hm hp]
  simp [ht, he]

/-- C8 (witness): the raw-email theorem evaluated at the counterexample
input, whose canonical form differs from the raw string. -/
theorem signup_stores_raw_email_witness :
    ((3 ≤ ("alice" : String).length ∧ ("alice" : String).length ≤ 50) ∧
     (normalizeEmail "Alice@Example.COM").isSome = true ∧
     (validate_password "Aa1!aaaa").1 = true ∧
     (⟨[], 1⟩ : AuthDB).users.any (fun x => x.username = sanitize_input "alice") = false ∧
     (⟨[], 1⟩ : AuthDB).users.any (fun x => x.email = "Alice@Example.COM") = false) ∧
    ((signup ⟨[], 1⟩ demoHash "alice" "Alice@Example.COM" "Aa1!aaaa").1 =
       .created ⟨(⟨[], 1⟩ : AuthDB).nextId, sanitize_input "alice", "Alice@Example.COM",
         demoHash "Aa1!aaaa"⟩ ∧
     (signup ⟨[], 1⟩ demoHash "alice" "Alice@Example.COM" "Aa1!aaaa").2.users =
       (⟨[], 1⟩ : AuthDB).users ++ [⟨(⟨[], 1⟩ : AuthDB).nextId, sanitize_input "alice",
         "Alice@Example.COM", demoHash "Aa1!aaaa"⟩]) :=
  ⟨⟨by decide, by decide, by decide, by decide, by decide⟩,
   signup_stores_raw_email ⟨[], 1⟩ demoHash "alice" "Alice@Example.COM" "Aa1!aaaa"
     (by decide) (by decide) (by decide) (by decide) (by decide)⟩

/-- C9: `ask-question` echoes and persists `sanitize_input` of the submitted
question — script blocks, HTML tags, SQL keywords and OR/AND-equality
patterns are stripped — and on concrete inputs the sanitized text differs
from what the client sent. -/
theorem ask_question_sanitizes (adb : AuthDB) (db : ChatDB) (uid : Nat)
    (q : String) (outcome : ProviderOutcome) (now : Nat) (user : User)
    (hu : adb.users.find? (fun u => u.id = uid) = some user) :
    ask_question adb db uid (some q) outcome now =
      (.ok (sanitize_input q) (get_response outcome) db.nextId,
       ⟨db.entries ++
          [⟨db.nextId, uid, sanitize_input q, get_response outcome, now⟩],
        db.nextId + 1⟩) ∧
    sanitize_input "<b>hi</b>" = "hi" ∧
    sanitize_input "<script>a</script>x" = "x" ∧
    sanitize_input "DROP TABLE t" = " TABLE t" ∧
    sanitize_input "a OR 1=1" = "a " ∧
    sanitize_input "<b>hi</b>" ≠ "<b>hi</b>" := by
  have hid : user.id = uid := by
    have := List.find?_some hu
    simpa using this
  exact ⟨by simp [ask_question, hu, hid], by decide, by decide, by decide,
    by decide, by decide⟩

/-- C9 (witness): the sanitization theorem evaluated on a concrete question
containing an HTML tag, with a succeeding provider. -/
theorem ask_question_sanitizes_witness :
    (demoAuthDB.users.find? (fun u => u.id = 1) = some demoUser) ∧
    (ask_question demoAuthDB ⟨[], 1⟩ 1 (some "<b>hi</b>") (.ok "fine") 9 =
      (.ok (sanitize_input "<b>hi</b>") (get_response (.ok "fine")) 1,
       ⟨[⟨1, 1, sanitize_input "<b>hi</b>", get_response (.ok "fine"), 9⟩], 2⟩) ∧
     sanitize_input "<b>hi</b>" = "hi" ∧
     sanitize_input "<script>a</script>x" = "x" ∧
     sanitize_input "DROP TABLE t" = " TABLE t" ∧
     sanitize_input "a OR 1=1" = "a " ∧
     sanitize_input "<b>hi</b>" ≠ "<b>hi</b>") :=
  ⟨by decide,
   ask_question_sanitizes demoAuthDB ⟨[], 1⟩ 1 "<b>hi</b>" (.ok "fine") 9 demoUser
     (by decide)⟩

/-- C10: a login body missing the username or the password field is treated
as carrying the empty string for that field — an absent username behaves
exactly like an explicit empty one — and the outcome is the 401 "Invalid
credentials" body (never a 400 validation error: no schema validation exists
on this route). -/
theorem login_missing_fields_unauthorized (db : AuthDB)
    (checkPw : User → String → Bool) (uname : String)
    (pw : Option String) (user : User)
    (hne : db.users.find? (fun u => u.username = sanitize_input "") = none)
    (h2 : db.users.find? (fun u => u.username = sanitize_input uname) = some user)
    (h3 : checkPw user "" = false) :
    login db checkPw none pw = login db checkPw (some "") pw ∧
    login db checkPw none pw = .invalidCredentials ∧
    loginStatus (login db checkPw none pw) = 401 ∧
    loginErrorBody (login db checkPw none pw) = some "Invalid credentials" ∧
    login db checkPw (some uname) none = .invalidCredentials ∧
    loginStatus (login db checkPw (some uname) none) = 401 ∧
    loginErrorBody (login db checkPw (some uname) none) = some "Invalid credentials" := by
  refine ⟨rfl, ?_, ?_, ?_, ?_, ?_, ?_⟩ <;>
    simp [login, hne, h2, h3, loginStatus, loginErrorBody]

/-- C10 (witness): the missing-field theorem evaluated on the concrete store
— no user has the empty username, `bob` exists and the empty password fails
verification. -/
theorem login_missing_fields_unauthorized_witness :
    (demoAuthDB.users.find? (fun u => u.username = sanitize_input "") = none) ∧
    (demoAuthDB.users.find? (fun u => u.username = sanitize_input "bob") = some demoUser) ∧
    (demoCheckPw demoUser "" = false) ∧
    (login demoAuthDB demoCheckPw none (some "x") =
       login demoAuthDB demoCheckPw (some "") (some "x") ∧
     login demoAuthDB demoCheckPw none (some "x") = .invalidCredentials ∧
     loginStatus (login demoAuthDB demoCheckPw none (some "x")) = 401 ∧
     loginErrorBody (login demoAuthDB demoCheckPw none (some "x")) =
       some "Invalid credentials" ∧
     login demoAuthDB demoCheckPw (some "bob") none = .invalidCredentials ∧
     loginStatus (login demoAuthDB demoCheckPw (some "bob") none) = 401 ∧
     loginErrorBody (login demoAuthDB demoCheckPw (some "bob") none) =
       some "Invalid credentials") :=
  ⟨by decide, by decide, by decide,
   login_missing_fields_unauthorized demoAuthDB demoCheckPw "bob" (some "x") demoUser
     (by decide) (by decide) (by decide)⟩
